import Mathlib

/-!
Verification of the output-stream dispatcher and writer of `httpie/output/writer.py`
(fork `jfgcf/httpie`).  The module is shallowly embedded: bytes are `Nat` lists,
the output sink is a record carrying its resolved handles, its text decoder and a
fault model for writes, and every function of the module becomes a pure Lean
function over those records.  The stream classes of `httpie.output.streams`, the
processing helpers of `httpie.output.processing` and the environment object of
`httpie.context` are not part of the sources; they are modelled from the spec
where a claim depends on them, as marked in the doc comments below.
-/

set_option autoImplicit false

namespace HttpieWriter

/-- A byte string, as a list of byte values. -/
abbrev Chunk := List Nat

/-- An I/O error carrying its `errno` value, as attached to a Python `IOError`. -/
structure IOError where
  errno : Nat
deriving DecidableEq

/-- `errno.EPIPE`: the broken-pipe error number. -/
def EPIPE : Nat := 32

/-- `MESSAGE_SEPARATOR = '\n\n'` encoded to bytes (`writer.py` lines 19-20). -/
def MESSAGE_SEPARATOR_BYTES : Chunk := [10, 10]

/-- Modelled from the spec: `httpie.output.streams` is not under the sources.
`RawStream` exposes two chunk-size constants, a line-sized one used when the
stream flag is set and "a larger fixed block size" otherwise. -/
def RawStream_CHUNK_SIZE_BY_LINE : Nat := 1

/-- Modelled from the spec: the larger fixed block size of `RawStream`. -/
def RawStream_CHUNK_SIZE : Nat := 102400

/-- The output sink (`env.stdout`): its own handle id, the handle id of its
binary `buffer` when it has one, the text decoder of its declared encoding
(`outfile.encoding`), and a fault model giving the `IOError` (if any) raised by
the k-th write call performed on it during one write pass. -/
structure Sink where
  handleId : Nat
  buffer : Option Nat
  dec : Chunk → String
  writeFail : Nat → Option IOError

/-- `buf = outfile.buffer except AttributeError: buf = outfile`
(`writer.py` lines 99-103): the binary-capable handle, resolved once. -/
def Sink.resolvedBuf (s : Sink) : Nat := s.buffer.getD s.handleId

/-- Modelled from the spec: the environment descriptor of `httpie.context`
(not under the sources) exposes terminal state, the constrained-platform flag
and the output sink; the diagnostic sink is observed via a newline counter. -/
structure Environment where
  stdout_isatty : Bool
  is_windows : Bool
  stdout : Sink

/-- The parsed-argument bundle, restricted to the fields `writer.py` reads. -/
structure Args where
  stream : Bool
  prettify : List String
  output_format_form : String
  style : String
  json : Bool
  format_options : List String
  debug : Bool
  traceback : Bool

/-- The stream classes `writer.py` imports from `httpie.output.streams`. -/
inductive StreamClass
  | RawStream
  | BaseStreamJson
  | PrettyStream
  | BufferedPrettyStream
  | EncodedStream
deriving DecidableEq

/-- Modelled from the spec: the conversion helper `Conversion()` of
`httpie.output.processing` is opaque configuration carried by the pretty
strategies. -/
structure Conversion where
  unitField : Unit := ()
deriving DecidableEq

/-- Modelled from the spec: the `Formatting(...)` bundle of
`httpie.output.processing`, holding the groups, color scheme, explicit-JSON
hint and format options handed over by the selector. -/
structure Formatting where
  env : Environment
  groups : List String
  color_scheme : String
  explicit_json : Bool
  format_options : List String

/-- The `stream_kwargs` dictionaries built by `get_stream_type_and_kwargs`,
one shape per branch of the selector. -/
inductive StreamKwargs
  | rawKw (chunk_size : Nat)
  | jsonKw (on_body_chunk_downloaded : Option Unit)
  | prettyKw (env : Environment) (conversion : Conversion) (formatting : Formatting)
  | encodedKw (env : Environment)

/-- `get_stream_type_and_kwargs` (`writer.py` lines 209-249), translated
branch for branch: raw for redirected unprettified output, the dual JSON
stream when `output_format_form == "JSON"`, pretty (streamed or buffered)
when prettify groups were requested, encoded otherwise. -/
def get_stream_type_and_kwargs (env : Environment) (args : Args) :
    StreamClass × StreamKwargs :=
  if !env.stdout_isatty && args.prettify.isEmpty then
    (.RawStream,
     .rawKw (if args.stream then RawStream_CHUNK_SIZE_BY_LINE else RawStream_CHUNK_SIZE))
  else if args.output_format_form == "JSON" then
    (.BaseStreamJson, .jsonKw none)
  else if !args.prettify.isEmpty then
    ((if args.stream then StreamClass.PrettyStream else .BufferedPrettyStream),
     .prettyKw env ⟨()⟩
       ⟨env, args.prettify, args.style, args.json, args.format_options⟩)
  else
    (.EncodedStream, .encodedKw env)

/-- The kind of `requests_message` handed to the writer: a prepared request or
a response, the two keys of the class-lookup dictionaries in `writer.py`. -/
inductive MsgKind
  | preparedRequest
  | response
deriving DecidableEq

/-- A message object, restricted to what `writer.py` reads from it: its kind
and the `is_body_upload_chunk` attribute consulted by the separator rule. -/
structure Message where
  kind : MsgKind
  is_body_upload_chunk : Bool
deriving DecidableEq

/-- The model classes of `httpie.models` that the producers wrap messages in. -/
inductive ModelClass
  | HTTPRequest
  | HTTPResponse
  | HTTPRequestJson
  | HTTPResponseJson
deriving DecidableEq

/-- The class lookup of `build_output_stream_for_message` (lines 160-163):
`PreparedRequest -> HTTPRequest`, `Response -> HTTPResponse`. -/
def message_class : MsgKind → ModelClass
  | .preparedRequest => .HTTPRequest
  | .response => .HTTPResponse

/-- The class lookup of `build_output_stream_for_message_json`
(lines 190-197): `PreparedRequest -> HTTPRequestJson`,
`Response -> HTTPResponseJson`. -/
def message_class_json : MsgKind → ModelClass
  | .preparedRequest => .HTTPRequestJson
  | .response => .HTTPResponseJson

/-- Modelled from the spec: the constructors of the stream classes live in
`httpie.output.streams`, which is not under the sources.  Per the spec each
strategy carries only its own configuration: `Raw` a chunk size, the pretty
variants the formatting bundle, `Encoded` the environment — all built for a
single message with `msg`, `with_headers`, `with_body`; the dual `Dual`
strategy alone is built from a request/response pair with the four
request/response flags and the no-op download callback.  A Python call with
keyword arguments a constructor does not declare raises `TypeError`, so the
single-message call `stream_class(msg=..., with_headers=..., with_body=...,
**stream_kwargs)` is accepted exactly by these class/kwargs shapes. -/
def acceptsSingleCall : StreamClass → StreamKwargs → Bool
  | .RawStream, .rawKw _ => true
  | .PrettyStream, .prettyKw _ _ _ => true
  | .BufferedPrettyStream, .prettyKw _ _ _ => true
  | .EncodedStream, .encodedKw _ => true
  | _, _ => false

/-- Modelled from the spec: the dual call `stream_class(msgReq=..., msgRes=...,
with_headers_req=..., ..., **stream_kwargs)` is accepted only by the dual
stream class `BaseStreamJson` with its callback kwargs; every other stream
class declares a single-message constructor and rejects the pair keywords
with `TypeError`. -/
def acceptsDualCall : StreamClass → StreamKwargs → Bool
  | .BaseStreamJson, .jsonKw _ => true
  | _, _ => false

/-- `build_output_stream_for_message` (lines 149-174).  The chunks yielded by
the instantiated stream class are abstracted by the `render` parameter; the
generator itself selects the strategy, wraps the message in its model class,
yields the stream's chunks and finally yields `MESSAGE_SEPARATOR_BYTES` when
stdout is a terminal, body output was requested and the message is not a
body-upload chunk.  A class/kwargs shape the constructor rejects is the
`TypeError` outcome. -/
def build_output_stream_for_message
    (render : StreamClass → StreamKwargs → ModelClass → Message → Bool → Bool → List Chunk)
    (args : Args) (env : Environment) (requests_message : Message)
    (with_headers : Bool) (with_body : Bool) : Except String (List Chunk) :=
  let sel := get_stream_type_and_kwargs env args
  if acceptsSingleCall sel.1 sel.2 then
    .ok (render sel.1 sel.2 (message_class requests_message.kind) requests_message
           with_headers with_body ++
         (if env.stdout_isatty && with_body && !requests_message.is_body_upload_chunk
          then [MESSAGE_SEPARATOR_BYTES] else []))
  else
    .error "TypeError"

/-- `build_output_stream_for_message_json` (lines 177-207).  The dual
producer: selects the strategy, wraps each half of the pair in its JSON model
class and yields the dual stream's chunks; it appends no separator.  As above,
a class/kwargs shape the constructor rejects is the `TypeError` outcome. -/
def build_output_stream_for_message_json
    (renderDual : StreamClass → StreamKwargs → ModelClass → ModelClass →
      Message → Message → Bool → Bool → Bool → Bool → List Chunk)
    (args : Args) (env : Environment) (requests_message : Message × Message)
    (with_headers_req : Bool) (with_body_req : Bool)
    (with_headers_res : Bool) (with_body_res : Bool) : Except String (List Chunk) :=
  let sel := get_stream_type_and_kwargs env args
  if acceptsDualCall sel.1 sel.2 then
    .ok (renderDual sel.1 sel.2
           (message_class_json requests_message.1.kind)
           (message_class_json requests_message.2.kind)
           requests_message.1 requests_message.2
           with_headers_req with_body_req with_headers_res with_body_res)
  else
    .error "TypeError"

/-- One observable action performed on the output sink: a byte write on a
handle, a text write on a handle, or a flush of a handle. -/
inductive SinkEvent
  | writeB (handle : Nat) (chunk : Chunk)
  | writeT (handle : Nat) (text : String)
  | flushE (handle : Nat)
deriving DecidableEq

/-- The write loop of `write_stream` (lines 105-108): write each chunk to the
resolved binary handle, flush the outfile after each chunk when `flush` is
set; the k-th write consults the sink's fault model and raises its error. -/
def writeLoop (outfile : Sink) (flush : Bool) :
    Nat → List Chunk → List SinkEvent × Option IOError
  | _, [] => ([], none)
  | k, chunk :: rest =>
    match outfile.writeFail k with
    | some e => ([], some e)
    | none =>
      let evs := SinkEvent.writeB outfile.resolvedBuf chunk ::
                 (if flush then [SinkEvent.flushE outfile.handleId] else [])
      let r := writeLoop outfile flush (k + 1) rest
      (evs ++ r.1, r.2)

/-- `write_stream` (lines 93-108): resolve the binary handle once, then run
the write loop over the chunk sequence. -/
def write_stream (stream : List Chunk) (outfile : Sink) (flush : Bool) :
    List SinkEvent × Option IOError :=
  writeLoop outfile flush 0 stream

/-- The write loop of `write_stream_json` (lines 122-125), a verbatim copy of
the loop of `write_stream` in the source. -/
def writeLoopJson (outfile : Sink) (flush : Bool) :
    Nat → List Chunk → List SinkEvent × Option IOError
  | _, [] => ([], none)
  | k, chunk :: rest =>
    match outfile.writeFail k with
    | some e => ([], some e)
    | none =>
      let evs := SinkEvent.writeB outfile.resolvedBuf chunk ::
                 (if flush then [SinkEvent.flushE outfile.handleId] else [])
      let r := writeLoopJson outfile flush (k + 1) rest
      (evs ++ r.1, r.2)

/-- `write_stream_json` (lines 110-125), a verbatim copy of `write_stream`. -/
def write_stream_json (stream : List Chunk) (outfile : Sink) (flush : Bool) :
    List SinkEvent × Option IOError :=
  writeLoopJson outfile flush 0 stream

/-- Containment of a byte subsequence, the meaning of Python's
`color in chunk` on bytes objects. -/
def containsSeq (needle : Chunk) : Chunk → Bool
  | [] => needle.isPrefixOf []
  | a :: t => needle.isPrefixOf (a :: t) || containsSeq needle t

/-- `color = b'\x1b['` (line 138): the ANSI escape introducer. -/
def colorIntroducer : Chunk := [27, 91]

/-- The loop of `write_stream_with_colors_win_py3` (lines 140-146): a chunk
containing the escape introducer is decoded with the outfile's declared
encoding and written as text to the outfile itself; any other chunk is
written unchanged to the binary buffer; flush after each chunk when `flush`
is set.  The k-th write consults the sink's fault model. -/
def colorLoop (outfile : Sink) (flush : Bool) :
    Nat → List Chunk → List SinkEvent × Option IOError
  | _, [] => ([], none)
  | k, chunk :: rest =>
    match outfile.writeFail k with
    | some e => ([], some e)
    | none =>
      let ev := if containsSeq colorIntroducer chunk
                then SinkEvent.writeT outfile.handleId (outfile.dec chunk)
                else SinkEvent.writeB outfile.resolvedBuf chunk
      let evs := ev :: (if flush then [SinkEvent.flushE outfile.handleId] else [])
      let r := colorLoop outfile flush (k + 1) rest
      (evs ++ r.1, r.2)

/-- `write_stream_with_colors_win_py3` (lines 128-146). -/
def write_stream_with_colors_win_py3 (stream : List Chunk) (outfile : Sink)
    (flush : Bool) : List SinkEvent × Option IOError :=
  colorLoop outfile flush 0 stream

/-- Which writer function the orchestrator invoked. -/
inductive WriterChoice
  | colorWin
  | plain
  | plainJson
deriving DecidableEq

/-- The outcome of one orchestrated write, the `WriteOutcome` taxonomy:
returned normally, returned after swallowing a broken pipe, re-raised an
`IOError`, or propagated a non-I/O `TypeError` from the producer. -/
inductive EmitResult
  | completed
  | suppressedBrokenPipe
  | failed (e : IOError)
  | typeError
deriving DecidableEq

/-- Everything observable about one call of an orchestrator: its outcome, the
newlines written to the diagnostic sink, the sink events performed, which
writer was invoked and with which flush flag, and the selected strategy
(`none` for each of the last three when the call returned before reaching
that part). -/
structure EmitTrace where
  outcome : EmitResult
  stderrNewlines : Nat
  events : List SinkEvent
  writer : Option WriterChoice
  flushUsed : Option Bool
  selected : Option (StreamClass × StreamKwargs)

/-- The writer-selection condition of `write_message` (line 45):
`env.is_windows and 'colors' in args.prettify`. -/
def chosenWriter (env : Environment) (args : Args) : WriterChoice :=
  if env.is_windows && args.prettify.contains "colors" then .colorWin else .plain

/-- The writer call inside the `try` of `write_message` (lines 44-48). -/
def runChosenWriter (env : Environment) (args : Args) (chunks : List Chunk)
    (flush : Bool) : List SinkEvent × Option IOError :=
  match chosenWriter env args with
  | .colorWin => write_stream_with_colors_win_py3 chunks env.stdout flush
  | _ => write_stream chunks env.stdout flush

/-- `write_message` (lines 23-55): return at once when neither body nor
headers were requested; otherwise build the chunk stream, resolve
`flush = env.stdout_isatty or args.stream`, run the chosen writer and classify
a raised `IOError`: a broken pipe with diagnostics off is swallowed after one
newline on stderr, anything else re-raises.  The producer's `TypeError` is not
an `IOError` and always propagates. -/
def write_message
    (render : StreamClass → StreamKwargs → ModelClass → Message → Bool → Bool → List Chunk)
    (requests_message : Message) (env : Environment) (args : Args)
    (with_headers : Bool) (with_body : Bool) : EmitTrace :=
  if !(with_body || with_headers) then
    ⟨.completed, 0, [], none, none, none⟩
  else
    let sel := get_stream_type_and_kwargs env args
    let flush := env.stdout_isatty || args.stream
    let writer := chosenWriter env args
    match build_output_stream_for_message render args env requests_message
            with_headers with_body with
    | .error _ => ⟨.typeError, 0, [], some writer, some flush, some sel⟩
    | .ok chunks =>
      let r := runChosenWriter env args chunks flush
      match r.2 with
      | none => ⟨.completed, 0, r.1, some writer, some flush, some sel⟩
      | some e =>
        if !(args.debug || args.traceback) && e.errno == EPIPE then
          ⟨.suppressedBrokenPipe, 1, r.1, some writer, some flush, some sel⟩
        else
          ⟨.failed e, 0, r.1, some writer, some flush, some sel⟩

/-- `write_message_json` (lines 57-90): return at once when none of the four
header/body flags is set; otherwise build the dual chunk stream, resolve the
same flush policy, run `write_stream_json` (the plain writer — no color-split
branch exists here) and classify a raised `IOError` exactly as
`write_message` does. -/
def write_message_json
    (renderDual : StreamClass → StreamKwargs → ModelClass → ModelClass →
      Message → Message → Bool → Bool → Bool → Bool → List Chunk)
    (requests_message : Message × Message) (env : Environment) (args : Args)
    (with_headers_req : Bool) (with_body_req : Bool)
    (with_headers_res : Bool) (with_body_res : Bool) : EmitTrace :=
  if !(with_body_req || with_headers_req || with_body_res || with_headers_res) then
    ⟨.completed, 0, [], none, none, none⟩
  else
    let sel := get_stream_type_and_kwargs env args
    let flush := env.stdout_isatty || args.stream
    match build_output_stream_for_message_json renderDual args env requests_message
            with_headers_req with_body_req with_headers_res with_body_res with
    | .error _ => ⟨.typeError, 0, [], some .plainJson, some flush, some sel⟩
    | .ok chunks =>
      let r := write_stream_json chunks env.stdout flush
      match r.2 with
      | none => ⟨.completed, 0, r.1, some .plainJson, some flush, some sel⟩
      | some e =>
        if !(args.debug || args.traceback) && e.errno == EPIPE then
          ⟨.suppressedBrokenPipe, 1, r.1, some .plainJson, some flush, some sel⟩
        else
          ⟨.failed e, 0, r.1, some .plainJson, some flush, some sel⟩

/-- The bytes a sink-event list carries through byte-path writes, in order. -/
def writtenBytes (evs : List SinkEvent) : Chunk :=
  (evs.filterMap fun e => match e with | .writeB _ c => some c | _ => none).flatten

/-- The number of flush calls in a sink-event list. -/
def flushCount (evs : List SinkEvent) : Nat :=
  (evs.filter fun e => match e with | .flushE _ => true | _ => false).length

/-- A single-byte-per-character decoder (the latin-1 codec): each byte value
becomes the character with that code point. -/
def latin1Dec (c : Chunk) : String := String.mk (c.map Char.ofNat)

/-- The matching single-byte encoder of the latin-1 codec. -/
def latin1Enc (s : String) : Chunk := s.data.map Char.toNat

/-- A sink whose writes never fail, declared encoding latin-1. -/
def okSink : Sink := ⟨0, some 1, latin1Dec, fun _ => none⟩

/-- A sink whose reader has gone away: every write raises `EPIPE`. -/
def pipeSink : Sink := ⟨0, some 1, latin1Dec, fun _ => some ⟨EPIPE⟩⟩

/-- Redirected output, ordinary platform, healthy sink. -/
def envRedirect : Environment := ⟨false, false, okSink⟩

/-- Interactive terminal, ordinary platform, healthy sink. -/
def envTty : Environment := ⟨true, false, okSink⟩

/-- Interactive terminal on the constrained (Windows) platform. -/
def envTtyWin : Environment := ⟨true, true, okSink⟩

/-- Redirected output whose downstream reader closed: every write breaks. -/
def envPipe : Environment := ⟨false, false, pipeSink⟩

/-- A flag bundle with everything off and no prettify groups. -/
def argsPlain : Args := ⟨false, [], "", "auto", false, [], false, false⟩

/-- The plain bundle with the dual JSON output form requested. -/
def argsJson : Args := ⟨false, [], "JSON", "auto", false, [], false, false⟩

/-- Dual JSON output with the colors prettify group requested. -/
def argsJsonColors : Args := ⟨false, ["colors"], "JSON", "auto", false, [], false, false⟩

/-- The colors prettify group requested, non-dual output form. -/
def argsColors : Args := ⟨false, ["colors"], "", "auto", false, [], false, false⟩

/-- A single-message rendering that yields one one-byte chunk `b"h"`. -/
def render0 : StreamClass → StreamKwargs → ModelClass → Message → Bool → Bool → List Chunk :=
  fun _ _ _ _ _ _ => [[104]]

/-- A dual rendering that yields one one-byte chunk `b"x"`. -/
def renderDual0 : StreamClass → StreamKwargs → ModelClass → ModelClass →
    Message → Message → Bool → Bool → Bool → Bool → List Chunk :=
  fun _ _ _ _ _ _ _ _ _ _ => [[120]]

/-- A prepared-request message that is not an upload-progress placeholder. -/
def msgReq0 : Message := ⟨.preparedRequest, false⟩

/-- A response message that is not an upload-progress placeholder. -/
def msgRes0 : Message := ⟨.response, false⟩

/-- On a sink whose writes never fail, the write loop emits one byte write per
chunk, in order, followed by a flush exactly when `flush` is set. -/
theorem writeLoop_ok (outfile : Sink) (flush : Bool)
    (h : ∀ k, outfile.writeFail k = none) :
    ∀ (k : Nat) (chunks : List Chunk),
      writeLoop outfile flush k chunks =
        (chunks.flatMap fun c =>
          SinkEvent.writeB outfile.resolvedBuf c ::
            (if flush then [SinkEvent.flushE outfile.handleId] else []), none) := by
  intro k chunks
  induction chunks generalizing k with
  | nil => simp [writeLoop]
  | cons c rest ih =>
    simp [writeLoop, h k, ih (k + 1)]

/-- The copied loop of `write_stream_json` computes exactly what the loop of
`write_stream` computes. -/
theorem writeLoopJson_eq_writeLoop (outfile : Sink) (flush : Bool) :
    ∀ (k : Nat) (chunks : List Chunk),
      writeLoopJson outfile flush k chunks = writeLoop outfile flush k chunks := by
  intro k chunks
  induction chunks generalizing k with
  | nil => rfl
  | cons c rest ih =>
    simp only [writeLoopJson, writeLoop]
    rw [ih (k + 1)]

/-- On a sink whose writes never fail, the color-split loop makes one text or
byte write per chunk, by the per-chunk introducer test, plus the flushes. -/
theorem colorLoop_ok (outfile : Sink) (flush : Bool)
    (h : ∀ k, outfile.writeFail k = none) :
    ∀ (k : Nat) (chunks : List Chunk),
      colorLoop outfile flush k chunks =
        (chunks.flatMap fun chunk =>
          (if containsSeq colorIntroducer chunk
           then SinkEvent.writeT outfile.handleId (outfile.dec chunk)
           else SinkEvent.writeB outfile.resolvedBuf chunk) ::
            (if flush then [SinkEvent.flushE outfile.handleId] else []), none) := by
  intro k chunks
  induction chunks generalizing k with
  | nil => simp [colorLoop]
  | cons c rest ih =>
    simp [colorLoop, h k, ih (k + 1)]

/-- The byte-write payloads of the canonical event list are the chunks. -/
theorem writtenBytes_canonical (b hd : Nat) (flush : Bool) :
    ∀ chunks : List Chunk,
      writtenBytes (chunks.flatMap fun c =>
        SinkEvent.writeB b c ::
          (if flush then [SinkEvent.flushE hd] else [])) = chunks.flatten := by
  intro chunks
  induction chunks with
  | nil => simp [writtenBytes]
  | cons c rest ih =>
    cases flush <;> simp_all [writtenBytes]

/-- The canonical event list holds one flush per chunk when `flush` is set and
none otherwise. -/
theorem flushCount_canonical (b hd : Nat) (flush : Bool) :
    ∀ chunks : List Chunk,
      flushCount (chunks.flatMap fun c =>
        SinkEvent.writeB b c ::
          (if flush then [SinkEvent.flushE hd] else [])) =
        (if flush then chunks.length else 0) := by
  intro chunks
  induction chunks with
  | nil => simp [flushCount]
  | cons c rest ih =>
    cases flush <;> simp_all [flushCount]

/-- C10: the single-message stream writer and the dual/JSON stream writer are
extensionally equal — for every chunk sequence, output sink and flush flag,
`write_stream` and `write_stream_json` resolve the same binary handle and
perform the identical sequence of write and flush operations, with the same
raised error if any. -/
theorem write_stream_json_refines_write_stream
    (stream : List Chunk) (outfile : Sink) (flush : Bool) :
    write_stream_json stream outfile flush = write_stream stream outfile flush := by
  unfold write_stream_json write_stream
  exact writeLoopJson_eq_writeLoop outfile flush 0 stream

/-- C8: on a sink whose writes do not fail, the stream writer writes each
chunk's bytes in exactly production order — the concatenation of the bytes
written equals the concatenation of the chunks, nothing added, dropped or
reordered — and flushes once per chunk when `flush` is set and never
otherwise; `write_stream_json` performs the identical operations. -/
theorem flush_cadence_and_order (stream : List Chunk) (outfile : Sink) (flush : Bool)
    (h : ∀ k, outfile.writeFail k = none) :
    write_stream stream outfile flush =
      (stream.flatMap fun c =>
        SinkEvent.writeB outfile.resolvedBuf c ::
          (if flush then [SinkEvent.flushE outfile.handleId] else []), none) ∧
    writtenBytes (write_stream stream outfile flush).1 = stream.flatten ∧
    flushCount (write_stream stream outfile flush).1 =
      (if flush then stream.length else 0) ∧
    write_stream_json stream outfile flush = write_stream stream outfile flush := by
  have hmain : write_stream stream outfile flush =
      (stream.flatMap fun c =>
        SinkEvent.writeB outfile.resolvedBuf c ::
          (if flush then [SinkEvent.flushE outfile.handleId] else []), none) :=
    writeLoop_ok outfile flush h 0 stream
  refine ⟨hmain, ?_, ?_, ?_⟩
  · rw [hmain]
    exact writtenBytes_canonical outfile.resolvedBuf outfile.handleId flush stream
  · rw [hmain]
    exact flushCount_canonical outfile.resolvedBuf outfile.handleId flush stream
  · unfold write_stream_json write_stream
    exact writeLoopJson_eq_writeLoop outfile flush 0 stream

/-- Witness for C8: two chunks through the healthy sink with `flush = true`
give two byte writes on the resolved buffer handle, each followed by one
flush of the outfile handle. -/
theorem flush_cadence_and_order_witness :
    (∀ k, okSink.writeFail k = none) ∧
    write_stream [[1, 2], [3]] okSink true =
      ([SinkEvent.writeB 1 [1, 2], SinkEvent.flushE 0,
        SinkEvent.writeB 1 [3], SinkEvent.flushE 0], none) ∧
    flushCount (write_stream [[1, 2], [3]] okSink true).1 = 2 := by
  refine ⟨fun _ => rfl, ?_, ?_⟩
  · exact (flush_cadence_and_order [[1, 2], [3]] okSink true (fun _ => rfl)).1
  · exact (flush_cadence_and_order [[1, 2], [3]] okSink true (fun _ => rfl)).2.2.1

/-- C5: the color-split writer decides once per chunk — a chunk containing
the ANSI escape introducer `b"\x1b["` is decoded as a whole with the sink's
declared encoding and written through the text path, any other chunk is
written unchanged through the byte path — and no other event is produced for
the chunk besides the optional flush. -/
theorem color_split_per_chunk (outfile : Sink) (stream : List Chunk) (flush : Bool)
    (h : ∀ k, outfile.writeFail k = none) :
    write_stream_with_colors_win_py3 stream outfile flush =
      (stream.flatMap fun chunk =>
        (if containsSeq colorIntroducer chunk
         then SinkEvent.writeT outfile.handleId (outfile.dec chunk)
         else SinkEvent.writeB outfile.resolvedBuf chunk) ::
          (if flush then [SinkEvent.flushE outfile.handleId] else []), none) := by
  unfold write_stream_with_colors_win_py3
  exact colorLoop_ok outfile flush h 0 stream

/-- Witness for C5: a colorized chunk goes through the text path and a plain
chunk through the byte path, in one pass over the healthy sink. -/
theorem color_split_per_chunk_witness :
    (∀ k, okSink.writeFail k = none) ∧
    write_stream_with_colors_win_py3 [[27, 91, 65], [66]] okSink false =
      ([SinkEvent.writeT okSink.handleId (okSink.dec [27, 91, 65]),
        SinkEvent.writeB okSink.resolvedBuf [66]], none) := by
  refine ⟨fun _ => rfl, ?_⟩
  exact color_split_per_chunk okSink [[27, 91, 65], [66]] false (fun _ => rfl)

/-- C7: round-trip of the color-split text path — when the sink's declared
codec re-encodes its own decoding of the chunk back to the same bytes, the
chunk containing the escape introducer is written through the text path as
exactly its decoding, whose re-encoding is byte-identical to the chunk; a
chunk without the introducer is written byte-identically via the byte path. -/
theorem color_text_path_round_trip (outfile : Sink) (enc : String → Chunk)
    (chunk : Chunk) (hfail : ∀ k, outfile.writeFail k = none)
    (hcodec : enc (outfile.dec chunk) = chunk) :
    (containsSeq colorIntroducer chunk = true →
      write_stream_with_colors_win_py3 [chunk] outfile false =
        ([SinkEvent.writeT outfile.handleId (outfile.dec chunk)], none) ∧
      enc (outfile.dec chunk) = chunk) ∧
    (containsSeq colorIntroducer chunk = false →
      write_stream_with_colors_win_py3 [chunk] outfile false =
        ([SinkEvent.writeB outfile.resolvedBuf chunk], none)) := by
  have h := colorLoop_ok outfile false hfail 0 [chunk]
  constructor
  · intro hc
    refine ⟨?_, hcodec⟩
    unfold write_stream_with_colors_win_py3
    rw [h]
    simp [hc]
  · intro hc
    unfold write_stream_with_colors_win_py3
    rw [h]
    simp [hc]

/-- Witness for C7: with the latin-1 codec the colorized chunk
`b"\x1b[h"` is text-written as its decoding and re-encodes to itself. -/
theorem color_text_path_round_trip_witness :
    (∀ k, okSink.writeFail k = none) ∧
    latin1Enc (okSink.dec [27, 91, 104]) = [27, 91, 104] ∧
    containsSeq colorIntroducer [27, 91, 104] = true ∧
    write_stream_with_colors_win_py3 [[27, 91, 104]] okSink false =
      ([SinkEvent.writeT okSink.handleId (okSink.dec [27, 91, 104])], none) := by
  have hcodec : latin1Enc (okSink.dec [27, 91, 104]) = [27, 91, 104] := by decide
  refine ⟨fun _ => rfl, hcodec, rfl, ?_⟩
  exact ((color_text_path_round_trip okSink latin1Enc [27, 91, 104]
    (fun _ => rfl) hcodec).1 rfl).1

/-- C1: the selector is a total first-match decision — (1) output not a
terminal and no prettify groups gives `Raw` with line-sized chunks when the
stream flag is set and the larger fixed block size otherwise; (2) else the
dual JSON form gives the dual stream with the no-op download callback;
(3) else any prettify group gives the streamed pretty variant under the
stream flag and the buffered one otherwise; (4) else `Encoded`.  The chosen
strategy depends on nothing but the terminal state, the prettify groups, the
stream flag and the dual-mode form. -/
theorem selector_first_match_total (env : Environment) (args : Args) :
    ((!env.stdout_isatty && args.prettify.isEmpty) = true →
      get_stream_type_and_kwargs env args =
        (.RawStream, .rawKw (if args.stream then RawStream_CHUNK_SIZE_BY_LINE
                             else RawStream_CHUNK_SIZE))) ∧
    ((!env.stdout_isatty && args.prettify.isEmpty) = false →
      (args.output_format_form == "JSON") = true →
      get_stream_type_and_kwargs env args = (.BaseStreamJson, .jsonKw none)) ∧
    ((!env.stdout_isatty && args.prettify.isEmpty) = false →
      (args.output_format_form == "JSON") = false →
      args.prettify.isEmpty = false →
      get_stream_type_and_kwargs env args =
        ((if args.stream then StreamClass.PrettyStream else .BufferedPrettyStream),
         .prettyKw env ⟨()⟩
           ⟨env, args.prettify, args.style, args.json, args.format_options⟩)) ∧
    ((!env.stdout_isatty && args.prettify.isEmpty) = false →
      (args.output_format_form == "JSON") = false →
      args.prettify.isEmpty = true →
      get_stream_type_and_kwargs env args = (.EncodedStream, .encodedKw env)) ∧
    (∀ (env' : Environment) (args' : Args),
      env'.stdout_isatty = env.stdout_isatty →
      args'.prettify = args.prettify →
      args'.stream = args.stream →
      args'.output_format_form = args.output_format_form →
      (get_stream_type_and_kwargs env' args').1 =
        (get_stream_type_and_kwargs env args).1) := by
  refine ⟨?_, ?_, ?_, ?_, ?_⟩
  · intro h1
    simp [get_stream_type_and_kwargs, h1]
  · intro h1 h2
    simp [get_stream_type_and_kwargs, h1, h2]
  · intro h1 h2 h3
    simp [get_stream_type_and_kwargs, h1, h2, h3]
  · intro h1 h2 h3
    simp only [h3, Bool.and_true, Bool.not_eq_false'] at h1
    simp [get_stream_type_and_kwargs, h1, h2, h3]
  · intro env' args' h1 h2 h3 h4
    unfold get_stream_type_and_kwargs
    rw [h1, h2, h3, h4]
    cases hA : env.stdout_isatty <;> cases hB : args.prettify.isEmpty <;>
      cases hC : args.output_format_form == "JSON" <;> cases hD : args.stream <;>
        simp [hA, hB, hC, hD]

/-- Witness for C1: redirected unprettified output without the stream flag
selects `Raw` with the larger fixed block size. -/
theorem selector_first_match_total_witness :
    (!envRedirect.stdout_isatty && argsPlain.prettify.isEmpty) = true ∧
    get_stream_type_and_kwargs envRedirect argsPlain =
      (.RawStream, .rawKw RawStream_CHUNK_SIZE) :=
  ⟨rfl, (selector_first_match_total envRedirect argsPlain).1 rfl⟩

/-- C3: when neither headers nor body were requested, `write_message` returns
`Completed` at once with zero sink events, zero diagnostic newlines, no
writer invoked, no flush resolved and no strategy selected; likewise
`write_message_json` when all four of its header/body flags are false. -/
theorem noop_when_nothing_requested :
    (∀ (render : StreamClass → StreamKwargs → ModelClass → Message → Bool → Bool → List Chunk)
       (msg : Message) (env : Environment) (args : Args),
      write_message render msg env args false false =
        ⟨.completed, 0, [], none, none, none⟩) ∧
    (∀ (renderDual : StreamClass → StreamKwargs → ModelClass → ModelClass →
         Message → Message → Bool → Bool → Bool → Bool → List Chunk)
       (pair : Message × Message) (env : Environment) (args : Args),
      write_message_json renderDual pair env args false false false false =
        ⟨.completed, 0, [], none, none, none⟩) :=
  ⟨fun _ _ _ _ => rfl, fun _ _ _ _ => rfl⟩

/-- Counterexample for C4: the dual/combined producer never appends the
separator chunk — on an interactive terminal with body output requested and
no upload placeholder, a dual rendering that yields the single chunk `b"x"`
is passed through unchanged, so the final chunk is not `b"\n\n"` although
the claim requires it there. -/
theorem dual_separator_counterexample :
    envTty.stdout_isatty = true ∧
    build_output_stream_for_message_json renderDual0 argsJson envTty
      (msgReq0, msgRes0) true true true true = .ok [[120]] ∧
    [[120]].getLast? ≠ some MESSAGE_SEPARATOR_BYTES := by
  refine ⟨rfl, rfl, by decide⟩

/-- C4 (amended): the single-message producer ends its chunk sequence with
exactly one `b"\n\n"` separator chunk when the sink is an interactive
terminal, body output was requested and the message is not an
upload-progress placeholder, and appends nothing in any other case; the
dual/combined producer yields the dual stream's chunks unchanged and never
appends a separator. -/
theorem separator_amended :
    (∀ (render : StreamClass → StreamKwargs → ModelClass → Message → Bool → Bool → List Chunk)
       (args : Args) (env : Environment) (msg : Message) (wh wb : Bool),
      acceptsSingleCall (get_stream_type_and_kwargs env args).1
        (get_stream_type_and_kwargs env args).2 = true →
      ((env.stdout_isatty && wb && !msg.is_body_upload_chunk) = true →
        build_output_stream_for_message render args env msg wh wb =
          .ok (render (get_stream_type_and_kwargs env args).1
                (get_stream_type_and_kwargs env args).2
                (message_class msg.kind) msg wh wb ++ [MESSAGE_SEPARATOR_BYTES])) ∧
      ((env.stdout_isatty && wb && !msg.is_body_upload_chunk) = false →
        build_output_stream_for_message render args env msg wh wb =
          .ok (render (get_stream_type_and_kwargs env args).1
                (get_stream_type_and_kwargs env args).2
                (message_class msg.kind) msg wh wb))) ∧
    (∀ (renderDual : StreamClass → StreamKwargs → ModelClass → ModelClass →
         Message → Message → Bool → Bool → Bool → Bool → List Chunk)
       (args : Args) (env : Environment) (pair : Message × Message)
       (h1 b1 h2 b2 : Bool),
      acceptsDualCall (get_stream_type_and_kwargs env args).1
        (get_stream_type_and_kwargs env args).2 = true →
      build_output_stream_for_message_json renderDual args env pair h1 b1 h2 b2 =
        .ok (renderDual (get_stream_type_and_kwargs env args).1
              (get_stream_type_and_kwargs env args).2
              (message_class_json pair.1.kind) (message_class_json pair.2.kind)
              pair.1 pair.2 h1 b1 h2 b2)) := by
  constructor
  · intro render args env msg wh wb hacc
    constructor
    · intro hcond
      simp [build_output_stream_for_message, hacc, hcond]
    · intro hcond
      simp [build_output_stream_for_message, hacc, hcond]
  · intro renderDual args env pair h1 b1 h2 b2 hacc
    simp [build_output_stream_for_message_json, hacc]

/-- Witness for C4 (amended): on an interactive terminal with body requested,
the single-message producer's output is the rendered chunk followed by the
separator chunk. -/
theorem separator_amended_witness :
    acceptsSingleCall (get_stream_type_and_kwargs envTty argsPlain).1
      (get_stream_type_and_kwargs envTty argsPlain).2 = true ∧
    (envTty.stdout_isatty && true && !msgReq0.is_body_upload_chunk) = true ∧
    build_output_stream_for_message render0 argsPlain envTty msgReq0 true true =
      .ok [[104], MESSAGE_SEPARATOR_BYTES] :=
  ⟨rfl, rfl,
   (separator_amended.1 render0 argsPlain envTty msgReq0 true true rfl).1 rfl⟩

/-- C6 is a code bug: in dual JSON mode with redirected output and no
prettify groups, the selector's first branch wins and returns the
single-message `RawStream`; the dual producer then calls that constructor
with the pair keywords it does not declare, which raises `TypeError`, so the
producer does not complete without error and the orchestrator propagates a
non-I/O exception. -/
theorem dual_raw_selection_type_error :
    get_stream_type_and_kwargs envRedirect argsJson =
      (.RawStream, .rawKw RawStream_CHUNK_SIZE) ∧
    build_output_stream_for_message_json renderDual0 argsJson envRedirect
      (msgReq0, msgRes0) true true true true = .error "TypeError" ∧
    (write_message_json renderDual0 (msgReq0, msgRes0) envRedirect argsJson
      true true true true).outcome = .typeError :=
  ⟨rfl, rfl, rfl⟩

/-- When something was requested and the producer succeeded but the writer
raised, `write_message` classifies the error by the broken-pipe test. -/
theorem write_message_error_shape
    (render : StreamClass → StreamKwargs → ModelClass → Message → Bool → Bool → List Chunk)
    (msg : Message) (env : Environment) (args : Args) (wh wb : Bool)
    (chunks : List Chunk) (e : IOError)
    (hflags : (wb || wh) = true)
    (hbuild : build_output_stream_for_message render args env msg wh wb = .ok chunks)
    (herr : (runChosenWriter env args chunks (env.stdout_isatty || args.stream)).2 =
      some e) :
    write_message render msg env args wh wb =
      if !(args.debug || args.traceback) && e.errno == EPIPE then
        ⟨.suppressedBrokenPipe, 1,
         (runChosenWriter env args chunks (env.stdout_isatty || args.stream)).1,
         some (chosenWriter env args), some (env.stdout_isatty || args.stream),
         some (get_stream_type_and_kwargs env args)⟩
      else
        ⟨.failed e, 0,
         (runChosenWriter env args chunks (env.stdout_isatty || args.stream)).1,
         some (chosenWriter env args), some (env.stdout_isatty || args.stream),
         some (get_stream_type_and_kwargs env args)⟩ := by
  unfold write_message
  rw [hflags, hbuild]
  simp only [Bool.not_true, Bool.false_eq_true, if_false, herr]

/-- The dual counterpart of `write_message_error_shape` for
`write_message_json`. -/
theorem write_message_json_error_shape
    (renderDual : StreamClass → StreamKwargs → ModelClass → ModelClass →
      Message → Message → Bool → Bool → Bool → Bool → List Chunk)
    (pair : Message × Message) (env : Environment) (args : Args)
    (h1 b1 h2 b2 : Bool) (chunks : List Chunk) (e : IOError)
    (hflags : (b1 || h1 || b2 || h2) = true)
    (hbuild : build_output_stream_for_message_json renderDual args env pair
      h1 b1 h2 b2 = .ok chunks)
    (herr : (write_stream_json chunks env.stdout (env.stdout_isatty || args.stream)).2 =
      some e) :
    write_message_json renderDual pair env args h1 b1 h2 b2 =
      if !(args.debug || args.traceback) && e.errno == EPIPE then
        ⟨.suppressedBrokenPipe, 1,
         (write_stream_json chunks env.stdout (env.stdout_isatty || args.stream)).1,
         some .plainJson, some (env.stdout_isatty || args.stream),
         some (get_stream_type_and_kwargs env args)⟩
      else
        ⟨.failed e, 0,
         (write_stream_json chunks env.stdout (env.stdout_isatty || args.stream)).1,
         some .plainJson, some (env.stdout_isatty || args.stream),
         some (get_stream_type_and_kwargs env args)⟩ := by
  unfold write_message_json
  rw [hflags, hbuild]
  simp only [Bool.not_true, Bool.false_eq_true, if_false, herr]

/-- C2: for every write in which an `IOError` is raised mid-write, a broken
pipe (`EPIPE`) with neither debug nor traceback active is swallowed as
`SuppressedBrokenPipe` with exactly one newline on the diagnostic sink; the
same broken pipe with diagnostics active propagates as `Failed` with no
newline; every other I/O fault always propagates as `Failed` with no
newline — in both `write_message` and `write_message_json`. -/
theorem broken_pipe_classification :
    (∀ (render : StreamClass → StreamKwargs → ModelClass → Message → Bool → Bool → List Chunk)
       (msg : Message) (env : Environment) (args : Args) (wh wb : Bool)
       (chunks : List Chunk) (e : IOError),
      (wb || wh) = true →
      build_output_stream_for_message render args env msg wh wb = .ok chunks →
      (runChosenWriter env args chunks (env.stdout_isatty || args.stream)).2 = some e →
      ((e.errno = EPIPE → (args.debug || args.traceback) = false →
        (write_message render msg env args wh wb).outcome = .suppressedBrokenPipe ∧
        (write_message render msg env args wh wb).stderrNewlines = 1) ∧
       (e.errno = EPIPE → (args.debug || args.traceback) = true →
        (write_message render msg env args wh wb).outcome = .failed e ∧
        (write_message render msg env args wh wb).stderrNewlines = 0) ∧
       (e.errno ≠ EPIPE →
        (write_message render msg env args wh wb).outcome = .failed e ∧
        (write_message render msg env args wh wb).stderrNewlines = 0))) ∧
    (∀ (renderDual : StreamClass → StreamKwargs → ModelClass → ModelClass →
         Message → Message → Bool → Bool → Bool → Bool → List Chunk)
       (pair : Message × Message) (env : Environment) (args : Args)
       (h1 b1 h2 b2 : Bool) (chunks : List Chunk) (e : IOError),
      (b1 || h1 || b2 || h2) = true →
      build_output_stream_for_message_json renderDual args env pair h1 b1 h2 b2 =
        .ok chunks →
      (write_stream_json chunks env.stdout (env.stdout_isatty || args.stream)).2 =
        some e →
      ((e.errno = EPIPE → (args.debug || args.traceback) = false →
        (write_message_json renderDual pair env args h1 b1 h2 b2).outcome =
          .suppressedBrokenPipe ∧
        (write_message_json renderDual pair env args h1 b1 h2 b2).stderrNewlines = 1) ∧
       (e.errno = EPIPE → (args.debug || args.traceback) = true →
        (write_message_json renderDual pair env args h1 b1 h2 b2).outcome = .failed e ∧
        (write_message_json renderDual pair env args h1 b1 h2 b2).stderrNewlines = 0) ∧
       (e.errno ≠ EPIPE →
        (write_message_json renderDual pair env args h1 b1 h2 b2).outcome = .failed e ∧
        (write_message_json renderDual pair env args h1 b1 h2 b2).stderrNewlines = 0))) := by
  constructor
  · intro render msg env args wh wb chunks e hflags hbuild herr
    have hshape := write_message_error_shape render msg env args wh wb chunks e
      hflags hbuild herr
    refine ⟨?_, ?_, ?_⟩
    · intro he hdiag
      rw [hshape, hdiag, he]
      simp
    · intro he hdiag
      rw [hshape, hdiag, he]
      simp
    · intro he
      have hbe : (e.errno == EPIPE) = false := beq_eq_false_iff_ne.mpr he
      rw [hshape, hbe]
      simp
  · intro renderDual pair env args h1 b1 h2 b2 chunks e hflags hbuild herr
    have hshape := write_message_json_error_shape renderDual pair env args h1 b1 h2 b2
      chunks e hflags hbuild herr
    refine ⟨?_, ?_, ?_⟩
    · intro he hdiag
      rw [hshape, hdiag, he]
      simp
    · intro he hdiag
      rw [hshape, hdiag, he]
      simp
    · intro he
      have hbe : (e.errno == EPIPE) = false := beq_eq_false_iff_ne.mpr he
      rw [hshape, hbe]
      simp

/-- Witness for C2: with every write breaking the pipe and diagnostics off,
the body-only write is suppressed with exactly one diagnostic newline. -/
theorem broken_pipe_classification_witness :
    (true || false) = true ∧
    build_output_stream_for_message render0 argsPlain envPipe msgReq0 false true =
      .ok [[104]] ∧
    (runChosenWriter envPipe argsPlain [[104]]
      (envPipe.stdout_isatty || argsPlain.stream)).2 = some ⟨EPIPE⟩ ∧
    (write_message render0 msgReq0 envPipe argsPlain false true).outcome =
      .suppressedBrokenPipe ∧
    (write_message render0 msgReq0 envPipe argsPlain false true).stderrNewlines = 1 := by
  have h := (broken_pipe_classification.1 render0 msgReq0 envPipe argsPlain
    false true [[104]] ⟨EPIPE⟩ rfl rfl rfl).1 rfl rfl
  exact ⟨rfl, rfl, rfl, h.1, h.2⟩

/-- Whenever `write_message` proceeds past its no-op guard, the trace records
the chosen writer and the resolved flush policy, in every branch. -/
theorem write_message_fields
    (render : StreamClass → StreamKwargs → ModelClass → Message → Bool → Bool → List Chunk)
    (msg : Message) (env : Environment) (args : Args) (wh wb : Bool)
    (hflags : (wb || wh) = true) :
    (write_message render msg env args wh wb).writer = some (chosenWriter env args) ∧
    (write_message render msg env args wh wb).flushUsed =
      some (env.stdout_isatty || args.stream) := by
  unfold write_message
  rw [hflags]
  simp only [Bool.not_true, Bool.false_eq_true, if_false]
  rcases hb : build_output_stream_for_message render args env msg wh wb with e | chunks
  · simp
  · rcases hr : (runChosenWriter env args chunks (env.stdout_isatty || args.stream)).2
      with _ | e
    · simp [hr]
    · simp only [hr]
      split <;> simp

/-- Whenever `write_message_json` proceeds past its no-op guard, the trace
records the plain JSON writer and the resolved flush policy, in every
branch. -/
theorem write_message_json_fields
    (renderDual : StreamClass → StreamKwargs → ModelClass → ModelClass →
      Message → Message → Bool → Bool → Bool → Bool → List Chunk)
    (pair : Message × Message) (env : Environment) (args : Args)
    (h1 b1 h2 b2 : Bool) (hflags : (b1 || h1 || b2 || h2) = true) :
    (write_message_json renderDual pair env args h1 b1 h2 b2).writer =
      some WriterChoice.plainJson ∧
    (write_message_json renderDual pair env args h1 b1 h2 b2).flushUsed =
      some (env.stdout_isatty || args.stream) := by
  unfold write_message_json
  rw [hflags]
  simp only [Bool.not_true, Bool.false_eq_true, if_false]
  rcases hb : build_output_stream_for_message_json renderDual args env pair h1 b1 h2 b2
    with e | chunks
  · simp
  · rcases hr : (write_stream_json chunks env.stdout (env.stdout_isatty || args.stream)).2
      with _ | e
    · simp [hr]
    · simp only [hr]
      split <;> simp

/-- Counterexample for C9: on the constrained platform with the colors group
requested, the dual orchestrator still invokes the plain JSON writer, not
the platform color-split writer the claim requires there. -/
theorem json_color_writer_counterexample :
    envTtyWin.is_windows = true ∧
    argsJsonColors.prettify.contains "colors" = true ∧
    (write_message_json renderDual0 (msgReq0, msgRes0) envTtyWin argsJsonColors
      true true true true).writer = some .plainJson ∧
    some WriterChoice.plainJson ≠ some WriterChoice.colorWin := by
  refine ⟨rfl, rfl, rfl, by decide⟩

/-- C9 (amended): for every emit call that writes anything, the flush policy
is `flush = sink-is-a-terminal OR stream flag`; the single-message
orchestrator selects the platform color-split writer exactly when running on
the constrained platform with the colors group among the requested prettify
groups and the plain byte-mode writer otherwise, while the dual/JSON
orchestrator always uses its plain byte-mode writer. -/
theorem flush_policy_and_writer_amended :
    (∀ (render : StreamClass → StreamKwargs → ModelClass → Message → Bool → Bool → List Chunk)
       (msg : Message) (env : Environment) (args : Args) (wh wb : Bool),
      (wb || wh) = true →
      (write_message render msg env args wh wb).flushUsed =
        some (env.stdout_isatty || args.stream) ∧
      (write_message render msg env args wh wb).writer = some (chosenWriter env args) ∧
      ((env.is_windows && args.prettify.contains "colors") = true →
        chosenWriter env args = .colorWin) ∧
      ((env.is_windows && args.prettify.contains "colors") = false →
        chosenWriter env args = .plain)) ∧
    (∀ (renderDual : StreamClass → StreamKwargs → ModelClass → ModelClass →
         Message → Message → Bool → Bool → Bool → Bool → List Chunk)
       (pair : Message × Message) (env : Environment) (args : Args)
       (h1 b1 h2 b2 : Bool),
      (b1 || h1 || b2 || h2) = true →
      (write_message_json renderDual pair env args h1 b1 h2 b2).flushUsed =
        some (env.stdout_isatty || args.stream) ∧
      (write_message_json renderDual pair env args h1 b1 h2 b2).writer =
        some WriterChoice.plainJson) := by
  constructor
  · intro render msg env args wh wb hflags
    have hf := write_message_fields render msg env args wh wb hflags
    refine ⟨hf.2, hf.1, ?_, ?_⟩
    · intro hc
      unfold chosenWriter
      rw [hc]
      rfl
    · intro hc
      unfold chosenWriter
      rw [hc]
      rfl
  · intro renderDual pair env args h1 b1 h2 b2 hflags
    have hf := write_message_json_fields renderDual pair env args h1 b1 h2 b2 hflags
    exact ⟨hf.2, hf.1⟩

/-- Witness for C9 (amended): a body-only terminal write on the constrained
platform with the colors group selects the color-split writer with
`flush = true`. -/
theorem flush_policy_and_writer_amended_witness :
    (true || false) = true ∧
    (envTtyWin.is_windows && argsColors.prettify.contains "colors") = true ∧
    (write_message render0 msgReq0 envTtyWin argsColors false true).flushUsed =
      some true ∧
    (write_message render0 msgReq0 envTtyWin argsColors false true).writer =
      some WriterChoice.colorWin := by
  have h := flush_policy_and_writer_amended.1 render0 msgReq0 envTtyWin argsColors
    false true rfl
  refine ⟨rfl, rfl, h.1, ?_⟩
  rw [h.2.1, h.2.2.1 rfl]

end HttpieWriter
